import Mathlib

/-!
Shallow embedding of the telemetry relay's connection-routing and
message-dispatch layer.

The embedding mirrors:
* the top-level upgrade dispatcher (`server.on('upgrade')` in the entry file);
* `ClientServer` (subscriber pool): `handleUpgrade`, the connection handler,
  `broadcastTelemetry`, `startHeartbeat`'s per-tick body, and the `pong` handler;
* `TelemetryServer` (producer side): `handleVehicleMessage`, `processMessage`,
  `sendAcknowledgment`, and the `close` handler of `handleVehicleConnection`;
* the type-guard helpers of `types/telemetry.ts`.

Decoded wire payloads are modelled as JSON-like values (`JValue`).  Sockets are
modelled by an identifier plus the open/closed state they have at the moment an
event handler runs (dispatch is single-threaded, so each handler sees one fixed
snapshot).  Handlers are pure functions from state to state plus an ordered
list of emitted effects (socket writes, transport responses, diagnostics).
-/

namespace TelemetryRelay

/-- JSON-like value: the shape of a decoded producer payload (protobuf
`toObject` result or `JSON.parse` result) and of the relay's outbound
messages. -/
inductive JValue where
  | str (s : String)
  | num (n : Int)
  | bool (b : Bool)
  | null
  | arr (xs : List JValue)
  | obj (fields : List (String × JValue))
deriving Repr

/-- First-match field lookup in an object's field list (JS object key access;
keys are unique in objects produced by parsing). -/
def lookupField : List (String × JValue) → String → Option JValue
  | [], _ => none
  | (k, v) :: rest, key => if k = key then some v else lookupField rest key

/-- Field access `m[k]`; `none` when `m` is not an object or lacks the key. -/
def JValue.get? : JValue → String → Option JValue
  | .obj fs, k => lookupField fs k
  | _, _ => none

/-- JS `k in m` presence probe (true even when the stored value is null). -/
def JValue.hasField (m : JValue) (k : String) : Bool := (m.get? k).isSome

/-- JS `'k' in m && Array.isArray(m.k)`. -/
def isArrField (m : JValue) (k : String) : Bool :=
  match m.get? k with
  | some (.arr _) => true
  | _ => false

/-- VIN extraction guard of `handleVehicleMessage`:
`messageObject && typeof messageObject === 'object' && 'vin' in messageObject
&& typeof messageObject.vin === 'string'`; returns the vin string on success. -/
def vinOf (m : JValue) : Option String :=
  match m with
  | .obj fs =>
    match lookupField fs "vin" with
    | some (.str s) => some s
    | _ => none
  | _ => none

/-- The five classification outcomes of the per-frame shape probe in
`handleVehicleMessage`. -/
inductive MsgClass where
  | data | connectivity | error | alert | unknown
deriving DecidableEq, Repr

/-- JS `'status' in m && (m.status === 'CONNECTED' || m.status === 'DISCONNECTED')`. -/
def isConnStatusField (m : JValue) : Bool :=
  match m.get? "status" with
  | some (.str s) => s = "CONNECTED" || s = "DISCONNECTED"
  | _ => false

/-- Shape classification of `handleVehicleMessage` (lines probing `data`,
`status`, `errors`, `alerts` in that order; the `data`/`errors`/`alerts`
probes additionally require an array value). -/
def classify (m : JValue) : MsgClass :=
  if isArrField m "data" then .data
  else if isConnStatusField m then .connectivity
  else if isArrField m "errors" then .error
  else if isArrField m "alerts" then .alert
  else .unknown

/-- Type guard `isTelemetryDataMessage` from `types/telemetry.ts`:
`'data' in message` (note: no array check). -/
def isTelemetryDataMessage (m : JValue) : Bool := m.hasField "data"

/-- Type guard `isTelemetryConnectivityMessage`: `'status' in message`. -/
def isTelemetryConnectivityMessage (m : JValue) : Bool := m.hasField "status"

/-- Type guard `isTelemetryErrorMessage`: `'errors' in message`. -/
def isTelemetryErrorMessage (m : JValue) : Bool := m.hasField "errors"

/-- Type guard `isTelemetryAlertMessage`: `'alerts' in message`. -/
def isTelemetryAlertMessage (m : JValue) : Bool := m.hasField "alerts"

/-- Synthesized `TelemetryConnectivityMessage` built by `handleVehicleMessage`
(CONNECTED) and by the `close` handler (DISCONNECTED). -/
def connectivityMsg (vin status now : String) : JValue :=
  .obj [("vin", .str vin), ("connectionId", .str ""),
        ("status", .str status), ("timestamp", .str now)]

/-- Acknowledgment frame built by `sendAcknowledgment`. -/
def ackMsg (vin now : String) : JValue :=
  .obj [("type", .str "ack"), ("vin", .str vin), ("timestamp", .str now)]

/-- Welcome message sent by the `ClientServer` connection handler. -/
def welcomeMsg (now : String) : JValue :=
  .obj [("type", .str "connection_status"), ("connected", .bool true),
        ("timestamp", .str now),
        ("message", .str "Connected to Tesla Telemetry Server")]

/-- A subscriber socket in the `ClientServer` pool: identifier, readyState
snapshot (`isOpen` = readyState OPEN), and the `isAlive` expando property —
`none` models the JS `undefined` it has until the heartbeat or a pong first
assigns it. -/
structure Client where
  id : Nat
  isOpen : Bool
  isAlive : Option Bool
deriving DecidableEq, Repr

/-- State of `ClientServer`: the `clients` set in insertion order. -/
structure ClientServerState where
  clients : List Client
deriving DecidableEq, Repr

/-- Result of `broadcastTelemetry`: the ordered socket writes performed
(client id paired with the message whose serialization is written), and how
many times `JSON.stringify` ran. -/
structure BroadcastResult where
  sends : List (Nat × JValue)
  serializations : Nat
deriving Repr

/-- `ClientServer.broadcastTelemetry`: returns immediately on an empty pool
without serializing; otherwise serializes once and writes the same serialized
message to every client whose readyState is OPEN, skipping the rest. -/
def broadcastTelemetry (st : ClientServerState) (msg : JValue) : BroadcastResult :=
  if st.clients.isEmpty then { sends := [], serializations := 0 }
  else { sends := (st.clients.filter (fun c => c.isOpen)).map (fun c => (c.id, msg)),
         serializations := 1 }

/-- The `ClientServer` connection handler: adds the socket to the pool
(its `isAlive` expando untouched, i.e. `none`) and sends the welcome message
via `sendToClient`, which writes only when the socket is OPEN. -/
def admitClient (st : ClientServerState) (newId : Nat) (now : String) :
    ClientServerState × List (Nat × JValue) :=
  let c : Client := { id := newId, isOpen := true, isAlive := none }
  (⟨st.clients ++ [c]⟩, if c.isOpen then [(newId, welcomeMsg now)] else [])

/-- The `pong` handler: `socket.isAlive = true` for the socket that ponged. -/
def handlePong (st : ClientServerState) (cid : Nat) : ClientServerState :=
  ⟨st.clients.map (fun c => if c.id = cid then { c with isAlive := some true } else c)⟩

/-- Heartbeat effects: terminating a non-responsive client or pinging one. -/
inductive HbEv where
  | terminate (id : Nat)
  | ping (id : Nat)
deriving DecidableEq, Repr

/-- One tick of `startHeartbeat`'s interval body: a client whose `isAlive`
is exactly `false` is terminated and deleted from the pool; every other
client has `isAlive` set to `false` and is pinged. -/
def heartbeatTick (st : ClientServerState) : ClientServerState × List HbEv :=
  (⟨st.clients.filterMap (fun c =>
      if c.isAlive = some false then none else some { c with isAlive := some false })⟩,
   st.clients.map (fun c =>
      if c.isAlive = some false then .terminate c.id else .ping c.id))

/-- A producer (vehicle) socket: identifier and readyState snapshot. -/
structure VehicleConn where
  id : Nat
  isOpen : Bool
deriving DecidableEq, Repr

/-- State of `TelemetryServer`: the `vehicleConnections` Map (VIN to socket
id, insertion order) and whether `PayloadType` has been set by the
asynchronous `loadProtoDefinitions`. -/
structure TelemetryState where
  vehicleConnections : List (String × Nat)
  payloadLoaded : Bool
deriving DecidableEq, Repr

/-- `Map.get` on `vehicleConnections`. -/
def lookupVin : List (String × Nat) → String → Option Nat
  | [], _ => none
  | (k, c) :: rest, vin => if k = vin then some c else lookupVin rest vin

/-- `Map.has` on `vehicleConnections`. -/
def registryHas (reg : List (String × Nat)) (vin : String) : Bool :=
  (lookupVin reg vin).isSome

/-- Diagnostics the `TelemetryServer` handlers log on their drop/fallback
paths. -/
inductive DiagTag where
  | protoNotLoaded
  | protoDecodeFailed
  | jsonParseFailed
  | unknownFrameType
  | noVin
  | vehicleIdentified (vin : String)
  | classifyUnknown
  | processUnknown
  | processError
  | vehicleDisconnected (vin : String)
  | unknownVehicleDisconnected
deriving Repr

/-- Effects emitted while handling a producer event: a call to
`clientServer.broadcastTelemetry`, a direct write on the producer socket
(the ack), or a logged diagnostic. -/
inductive Action where
  | broadcast (m : JValue)
  | ackSend (conn : Nat) (m : JValue)
  | diag (t : DiagTag)
deriving Repr

/-- In `processMessage`'s data branch the log line evaluates
`message.data.length` before the broadcast; a null value throws a TypeError
(caught by the branch's enclosing try/catch). -/
def dataBranchThrows (m : JValue) : Bool :=
  match m.get? "data" with
  | some .null => true
  | _ => false

/-- In `processMessage`'s errors branch the log line evaluates
`message.errors.length` and then `message.errors.forEach(e => ... e.code ...)`
before the broadcast: a non-array value has no `forEach` (TypeError), and a
null array element throws on `e.code`.  Only an array of non-null elements
reaches the broadcast. -/
def errorsBranchThrows (m : JValue) : Bool :=
  match m.get? "errors" with
  | some (.arr xs) => !(xs.all (fun x => match x with | .null => false | _ => true))
  | _ => true

/-- In `processMessage`'s alerts branch the log line evaluates
`message.alerts.length` before the broadcast; a null value throws a
TypeError. -/
def alertsBranchThrows (m : JValue) : Bool :=
  match m.get? "alerts" with
  | some .null => true
  | _ => false

/-- Whether `processMessage`'s dispatch reaches its `broadcastTelemetry`
call: the branch selected by the type guards may throw while building its
log line, and the enclosing try/catch then swallows the TypeError before the
broadcast. -/
def processBroadcastOk (m : JValue) : Bool :=
  if isTelemetryDataMessage m then !dataBranchThrows m
  else if isTelemetryConnectivityMessage m then true
  else if isTelemetryErrorMessage m then !errorsBranchThrows m
  else if isTelemetryAlertMessage m then !alertsBranchThrows m
  else true

/-- `TelemetryServer.processMessage`: dispatches on the `types/telemetry.ts`
type guards in order data, status, errors, alerts, inside one try/catch; a
branch forwards the message via `broadcastTelemetry` unless its preceding log
line throws on a malformed field, in which case the catch logs an error and
the frame is dropped; the fallback branch logs an unknown-type diagnostic and
always forwards. -/
def processMessageActs (m : JValue) : List Action :=
  if isTelemetryDataMessage m then
    if dataBranchThrows m then [.diag .processError] else [.broadcast m]
  else if isTelemetryConnectivityMessage m then [.broadcast m]
  else if isTelemetryErrorMessage m then
    if errorsBranchThrows m then [.diag .processError] else [.broadcast m]
  else if isTelemetryAlertMessage m then
    if alertsBranchThrows m then [.diag .processError] else [.broadcast m]
  else [.diag .processUnknown, .broadcast m]

/-- `TelemetryServer.sendAcknowledgment`: only when `isTelemetryDataMessage`
holds, build `{type:'ack', vin, timestamp}` and write it if the producer
socket's readyState is OPEN. -/
def sendAckActs (sock : VehicleConn) (m : JValue) (vin now : String) : List Action :=
  if isTelemetryDataMessage m then
    if sock.isOpen then [.ackSend sock.id (ackMsg vin now)] else []
  else []

/-- The post-decode body of `handleVehicleMessage`: reject payloads without
a string `vin`; on a vin not yet in the registry, insert it and broadcast a
synthesized CONNECTED message; then classify (logging when the shape is
unknown), run `processMessage`, and finally `sendAcknowledgment`. -/
def processDecoded (st : TelemetryState) (sock : VehicleConn) (m : JValue)
    (now : String) : TelemetryState × List Action :=
  match vinOf m with
  | none => (st, [.diag .noVin])
  | some vin =>
    let registered := registryHas st.vehicleConnections vin
    let st1 : TelemetryState :=
      if registered then st
      else { st with vehicleConnections := st.vehicleConnections ++ [(vin, sock.id)] }
    let preActs : List Action :=
      if registered then []
      else [.diag (.vehicleIdentified vin),
            .broadcast (connectivityMsg vin "CONNECTED" now)]
    let clsActs : List Action :=
      if classify m = .unknown then [.diag .classifyUnknown] else []
    (st1, preActs ++ clsActs ++ processMessageActs m ++ sendAckActs sock m vin now)

/-- An inbound producer frame, abstracted at the decode boundary: a binary
frame with its protobuf decode result (`none` = decode failure), a text frame
with its JSON parse result (`none` = parse failure), or a frame of neither
kind. -/
inductive Frame where
  | binary (decoded : Option JValue)
  | text (parsed : Option JValue)
  | other
deriving Repr

/-- `TelemetryServer.handleVehicleMessage`: drops every frame while
`PayloadType` is still null; otherwise drops frames failing decode/parse and
frames of unknown kind, and runs the post-decode body on success. -/
def handleVehicleMessage (st : TelemetryState) (sock : VehicleConn)
    (frame : Frame) (now : String) : TelemetryState × List Action :=
  if !st.payloadLoaded then (st, [.diag .protoNotLoaded])
  else
    match frame with
    | .binary none => (st, [.diag .protoDecodeFailed])
    | .binary (some m) => processDecoded st sock m now
    | .text none => (st, [.diag .jsonParseFailed])
    | .text (some m) => processDecoded st sock m now
    | .other => (st, [.diag .unknownFrameType])

/-- The `close` handler installed by `handleVehicleConnection`: linear scan of
`vehicleConnections` for the first entry whose socket equals the closing one;
if found, delete that VIN from the Map and broadcast a synthesized
DISCONNECTED message; otherwise do nothing but log. -/
def onVehicleClose (st : TelemetryState) (sockId : Nat) (now : String) :
    TelemetryState × List Action :=
  match st.vehicleConnections.find? (fun p => p.2 == sockId) with
  | some (vin, _) =>
    ({ st with vehicleConnections := st.vehicleConnections.filter (fun p => p.1 != vin) },
     [.diag (.vehicleDisconnected vin),
      .broadcast (connectivityMsg vin "DISCONNECTED" now)])
  | none => (st, [.diag .unknownVehicleDisconnected])

/-- An upgrade request as the dispatcher sees it: its resolved pathname. -/
structure UpgradeRequest where
  pathname : String
deriving DecidableEq, Repr

/-- Transport-level effects of upgrade handling. -/
inductive UpgradeAct where
  | respond401Destroy
  | respond404Destroy
  | welcomeSend (conn : Nat) (m : JValue)
deriving Repr

/-- Result of the top-level upgrade dispatcher: the (possibly grown)
subscriber pool, the transport/socket effects in order, and whether the
socket was admitted as a producer (handed to the telemetry WebSocket
server). -/
structure UpgradeResult where
  pool : ClientServerState
  acts : List UpgradeAct
  producerAdmitted : Bool
deriving Repr

/-- `ClientServer.handleUpgrade`: run `AuthService.authenticateWebSocketRequest`;
on null, answer 401 and destroy the transport; on success, complete the
upgrade and fire the connection handler (`admitClient`). -/
def clientHandleUpgrade (auth : UpgradeRequest → Option JValue)
    (req : UpgradeRequest) (pool : ClientServerState) (newId : Nat)
    (now : String) : ClientServerState × List UpgradeAct :=
  match auth req with
  | none => (pool, [.respond401Destroy])
  | some _ =>
    let r := admitClient pool newId now
    (r.1, r.2.map (fun s => .welcomeSend s.1 s.2))

/-- The entry file's `server.on('upgrade')` dispatcher: `/stream` goes to
`ClientServer.handleUpgrade` (token gate), `/` is admitted as a producer with
no credential check, and every other path is answered 404 and destroyed. -/
def serverOnUpgrade (auth : UpgradeRequest → Option JValue)
    (req : UpgradeRequest) (pool : ClientServerState) (newId : Nat)
    (now : String) : UpgradeResult :=
  if req.pathname = "/stream" then
    let r := clientHandleUpgrade auth req pool newId now
    ⟨r.1, r.2, false⟩
  else if req.pathname = "/" then
    ⟨pool, [], true⟩
  else
    ⟨pool, [.respond404Destroy], false⟩

/-- The messages passed to `broadcastTelemetry` by a list of actions, in
order. -/
def broadcastsOf (acts : List Action) : List JValue :=
  acts.filterMap (fun a => match a with | .broadcast m => some m | _ => none)

/-- The ack writes performed by a list of actions, in order. -/
def acksOf (acts : List Action) : List (Nat × JValue) :=
  acts.filterMap (fun a => match a with | .ackSend c m => some (c, m) | _ => none)

/-- Messages delivered to the subscriber socket `cid` when each broadcast in
`acts` is fanned out over the pool `pool` by `broadcastTelemetry`, in
delivery order. -/
def deliveredTo (pool : ClientServerState) (cid : Nat) (acts : List Action) :
    List JValue :=
  ((broadcastsOf acts).flatMap (fun m => (broadcastTelemetry pool m).sends)).filterMap
    (fun s => if s.1 = cid then some s.2 else none)

/-- Scenario A's first frame: `{vin:"V1", data:[{key:"soc",
value:{doubleValue:80}}], createdAt:"T1"}`. -/
def scenarioAPayload : JValue :=
  .obj [("vin", .str "V1"),
        ("data", .arr [.obj [("key", .str "soc"),
          ("value", .obj [("doubleValue", .num 80)])]]),
        ("createdAt", .str "T1")]

/-! ### Helper lemmas -/

/-- Splitting `broadcastsOf` over appended action lists. -/
theorem broadcastsOf_append (a b : List Action) :
    broadcastsOf (a ++ b) = broadcastsOf a ++ broadcastsOf b := by
  simp [broadcastsOf]

/-- Evaluation rules keeping `broadcastsOf` folded. -/
theorem broadcastsOf_nil : broadcastsOf [] = [] := rfl

/-- A diagnostic contributes no broadcast. -/
theorem broadcastsOf_cons_diag (t : DiagTag) (rest : List Action) :
    broadcastsOf (.diag t :: rest) = broadcastsOf rest := rfl

/-- A broadcast action contributes its message. -/
theorem broadcastsOf_cons_broadcast (m : JValue) (rest : List Action) :
    broadcastsOf (.broadcast m :: rest) = m :: broadcastsOf rest := rfl

/-- An ack write contributes no broadcast. -/
theorem broadcastsOf_cons_ack (c : Nat) (m : JValue) (rest : List Action) :
    broadcastsOf (.ackSend c m :: rest) = broadcastsOf rest := rfl

/-- Evaluation rules keeping `acksOf` folded. -/
theorem acksOf_nil : acksOf [] = [] := rfl

/-- A diagnostic contributes no ack. -/
theorem acksOf_cons_diag (t : DiagTag) (rest : List Action) :
    acksOf (.diag t :: rest) = acksOf rest := rfl

/-- A broadcast contributes no ack. -/
theorem acksOf_cons_broadcast (m : JValue) (rest : List Action) :
    acksOf (.broadcast m :: rest) = acksOf rest := rfl

/-- An ack write contributes its destination and frame. -/
theorem acksOf_cons_ack (c : Nat) (m : JValue) (rest : List Action) :
    acksOf (.ackSend c m :: rest) = (c, m) :: acksOf rest := rfl

/-- Splitting `acksOf` over appended action lists. -/
theorem acksOf_append (a b : List Action) :
    acksOf (a ++ b) = acksOf a ++ acksOf b := by
  simp [acksOf]

/-- `processMessage` broadcasts the message itself exactly once when the
selected dispatch branch does not throw, and broadcasts nothing when it
does. -/
theorem broadcastsOf_processMessageActs (m : JValue) :
    broadcastsOf (processMessageActs m)
      = (if processBroadcastOk m then [m] else []) := by
  simp only [processMessageActs, processBroadcastOk]
  by_cases h1 : isTelemetryDataMessage m = true
  · by_cases h2 : dataBranchThrows m = true <;> simp [h1, h2, broadcastsOf]
  · by_cases h3 : isTelemetryConnectivityMessage m = true
    · simp [h1, h3, broadcastsOf]
    · by_cases h4 : isTelemetryErrorMessage m = true
      · by_cases h5 : errorsBranchThrows m = true <;>
          simp [h1, h3, h4, h5, broadcastsOf]
      · by_cases h6 : isTelemetryAlertMessage m = true
        · by_cases h7 : alertsBranchThrows m = true <;>
            simp [h1, h3, h4, h6, h7, broadcastsOf]
        · simp [h1, h3, h4, h6, broadcastsOf]

/-- `processMessage` never writes an ack. -/
theorem acksOf_processMessageActs (m : JValue) :
    acksOf (processMessageActs m) = [] := by
  simp only [processMessageActs]
  repeat' split
  all_goals simp [acksOf]

/-- `sendAcknowledgment` never broadcasts. -/
theorem broadcastsOf_sendAckActs (sock : VehicleConn) (m : JValue) (vin now : String) :
    broadcastsOf (sendAckActs sock m vin now) = [] := by
  simp only [sendAckActs]
  repeat' split
  all_goals simp [broadcastsOf]

/-- The acks of `sendAcknowledgment`: one write of the ack frame to the
originating socket exactly when the data-field guard holds and the socket is
open. -/
theorem acksOf_sendAckActs (sock : VehicleConn) (m : JValue) (vin now : String) :
    acksOf (sendAckActs sock m vin now) =
      (if isTelemetryDataMessage m && sock.isOpen
       then [(sock.id, ackMsg vin now)] else []) := by
  simp only [sendAckActs]
  by_cases hd : isTelemetryDataMessage m = true
  · by_cases ho : sock.isOpen = true
    · simp [hd, ho, acksOf]
    · simp [hd, ho, acksOf]
  · simp [hd, acksOf]

/-- A successful vin extraction means the payload's `vin` field holds that
string. -/
theorem get_vin_of_vinOf (m : JValue) (vin : String) (h : vinOf m = some vin) :
    m.get? "vin" = some (.str vin) := by
  cases m <;> simp [vinOf] at h
  case obj fs =>
    cases hf : lookupField fs "vin" <;> simp [hf] at h
    case some v =>
      cases v <;> simp at h
      case str s => simp [JValue.get?, hf, h]

/-- Unfolding of the post-decode body once the vin extraction has
succeeded. -/
theorem processDecoded_some (st : TelemetryState) (sock : VehicleConn)
    (m : JValue) (now vin : String) (hv : vinOf m = some vin) :
    processDecoded st sock m now =
      (if registryHas st.vehicleConnections vin
        then st
        else { st with vehicleConnections := st.vehicleConnections ++ [(vin, sock.id)] },
       (if registryHas st.vehicleConnections vin then ([] : List Action)
        else [.diag (.vehicleIdentified vin),
              .broadcast (connectivityMsg vin "CONNECTED" now)]) ++
       (if classify m = .unknown then [.diag .classifyUnknown] else []) ++
       processMessageActs m ++ sendAckActs sock m vin now) := by
  simp only [processDecoded, hv]

/-- Registry update of the post-decode body: insert on first sight of the
vin, otherwise no change. -/
theorem processDecoded_state (st : TelemetryState) (sock : VehicleConn)
    (m : JValue) (now vin : String) (hv : vinOf m = some vin) :
    (processDecoded st sock m now).1 =
      if registryHas st.vehicleConnections vin then st
      else { st with vehicleConnections := st.vehicleConnections ++ [(vin, sock.id)] } := by
  rw [processDecoded_some st sock m now vin hv]

/-- Broadcasts of the post-decode body: the synthesized CONNECTED message on
first sight of the vin, then the frame itself when `processMessage`'s
selected branch reaches its broadcast — and nothing else. -/
theorem processDecoded_broadcasts (st : TelemetryState) (sock : VehicleConn)
    (m : JValue) (now vin : String) (hv : vinOf m = some vin) :
    broadcastsOf (processDecoded st sock m now).2 =
      (if registryHas st.vehicleConnections vin then []
       else [connectivityMsg vin "CONNECTED" now]) ++
      (if processBroadcastOk m then [m] else []) := by
  rw [processDecoded_some st sock m now vin hv]
  by_cases hreg : registryHas st.vehicleConnections vin = true <;>
    by_cases hcls : classify m = .unknown <;>
      by_cases hok : processBroadcastOk m = true <;>
        simp [hreg, hcls, hok, broadcastsOf_append, broadcastsOf_processMessageActs,
              broadcastsOf_sendAckActs, broadcastsOf_nil, broadcastsOf_cons_diag,
              broadcastsOf_cons_broadcast]

/-- Acks of the post-decode body: one ack to the originating socket exactly
when the payload has a `data` field and the socket is open. -/
theorem processDecoded_acks (st : TelemetryState) (sock : VehicleConn)
    (m : JValue) (now vin : String) (hv : vinOf m = some vin) :
    acksOf (processDecoded st sock m now).2 =
      (if isTelemetryDataMessage m && sock.isOpen
       then [(sock.id, ackMsg vin now)] else []) := by
  rw [processDecoded_some st sock m now vin hv]
  by_cases hreg : registryHas st.vehicleConnections vin = true <;>
    by_cases hcls : classify m = .unknown <;>
      simp [hreg, hcls, acksOf_append, acksOf_processMessageActs,
            acksOf_sendAckActs, acksOf_nil, acksOf_cons_diag, acksOf_cons_broadcast]

/-- An ack write is recorded in `acksOf`. -/
theorem mem_acksOf (acts : List Action) (c : Nat) (m : JValue) :
    (c, m) ∈ acksOf acts ↔ Action.ackSend c m ∈ acts := by
  induction acts with
  | nil => simp [acksOf_nil]
  | cons a rest ih =>
    cases a with
    | broadcast b =>
      rw [acksOf_cons_broadcast]
      simp [List.mem_cons, ih]
    | ackSend cc mm =>
      rw [acksOf_cons_ack]
      simp [List.mem_cons, ih, Prod.ext_iff]
    | diag t =>
      rw [acksOf_cons_diag]
      simp [List.mem_cons, ih]

/-! ### Claims -/

/-- C1: every inbound upgrade is routed by path — `/stream` invokes the token
gate, admitting the socket to the subscriber pool and sending the welcome
message on success, or answering 401 and destroying the transport on failure;
`/` admits the socket as a producer without consulting the credential check at
all; any other path is answered 404 and the transport destroyed. -/
theorem c1_upgrade_path_routing (auth : UpgradeRequest → Option JValue)
    (req : UpgradeRequest) (pool : ClientServerState) (newId : Nat) (now : String) :
    (req.pathname = "/stream" → auth req = none →
      serverOnUpgrade auth req pool newId now
        = ⟨pool, [.respond401Destroy], false⟩) ∧
    (req.pathname = "/stream" → ∀ claims, auth req = some claims →
      serverOnUpgrade auth req pool newId now
        = ⟨⟨pool.clients ++ [{ id := newId, isOpen := true, isAlive := none }]⟩,
           [.welcomeSend newId (welcomeMsg now)], false⟩) ∧
    (req.pathname = "/" →
      serverOnUpgrade auth req pool newId now = ⟨pool, [], true⟩ ∧
      ∀ auth2, serverOnUpgrade auth2 req pool newId now
        = serverOnUpgrade auth req pool newId now) ∧
    (req.pathname ≠ "/stream" → req.pathname ≠ "/" →
      serverOnUpgrade auth req pool newId now
        = ⟨pool, [.respond404Destroy], false⟩) := by
  obtain ⟨p⟩ := req
  refine ⟨?_, ?_, ?_, ?_⟩
  · intro hp ha
    simp only at hp
    subst hp
    simp [serverOnUpgrade, clientHandleUpgrade, ha]
  · intro hp claims ha
    simp only at hp
    subst hp
    simp [serverOnUpgrade, clientHandleUpgrade, ha, admitClient]
  · intro hp
    simp only at hp
    subst hp
    exact ⟨rfl, fun _ => rfl⟩
  · intro h1 h2
    simp only at h1 h2
    simp [serverOnUpgrade, h1, h2]

/-- C1 witness: the routing theorem evaluated at concrete requests on each of
the four paths. -/
theorem c1_upgrade_path_routing_witness :
    serverOnUpgrade (fun _ => none) ⟨"/stream"⟩ ⟨[]⟩ 5 "T"
      = ⟨⟨[]⟩, [.respond401Destroy], false⟩ ∧
    serverOnUpgrade (fun _ => some .null) ⟨"/stream"⟩ ⟨[]⟩ 5 "T"
      = ⟨⟨[{ id := 5, isOpen := true, isAlive := none }]⟩,
         [.welcomeSend 5 (welcomeMsg "T")], false⟩ ∧
    serverOnUpgrade (fun _ => none) ⟨"/"⟩ ⟨[]⟩ 5 "T" = ⟨⟨[]⟩, [], true⟩ ∧
    serverOnUpgrade (fun _ => none) ⟨"/other"⟩ ⟨[]⟩ 5 "T"
      = ⟨⟨[]⟩, [.respond404Destroy], false⟩ :=
  ⟨(c1_upgrade_path_routing (fun _ => none) ⟨"/stream"⟩ ⟨[]⟩ 5 "T").1 rfl rfl,
   (c1_upgrade_path_routing (fun _ => some .null) ⟨"/stream"⟩ ⟨[]⟩ 5 "T").2.1 rfl .null rfl,
   ((c1_upgrade_path_routing (fun _ => none) ⟨"/"⟩ ⟨[]⟩ 5 "T").2.2.1 rfl).1,
   (c1_upgrade_path_routing (fun _ => none) ⟨"/other"⟩ ⟨[]⟩ 5 "T").2.2.2
     (by decide) (by decide)⟩

/-- C2 counterexample: the registry maps V1 to socket 1; a frame carrying V1
then arrives on socket 2, and after processing the registry still maps V1 to
socket 1 — the entry is NOT overwritten to the new connection, contradicting
the claim's "overwrites the registry entry so that v maps to c". -/
theorem c2_counterexample :
    (processDecoded ⟨[("V1", 1)], true⟩ ⟨2, true⟩
        (.obj [("vin", .str "V1"), ("data", .arr [])]) "T").1.vehicleConnections
      = [("V1", 1)] ∧ (1 : Nat) ≠ 2 :=
  ⟨rfl, by decide⟩

/-- C2 (amended): when the registry already maps the frame's identity to some
live connection, processing the frame leaves the registry entry unchanged —
the prior mapping is kept rather than overwritten — with no collision
detection and no write of any kind to the previously mapped connection. -/
theorem c2_duplicate_vin_keeps_prior_mapping (st : TelemetryState)
    (sock : VehicleConn) (m : JValue) (now vin : String) (cPrev : Nat)
    (hv : vinOf m = some vin)
    (hr : lookupVin st.vehicleConnections vin = some cPrev)
    (hne : cPrev ≠ sock.id) :
    (processDecoded st sock m now).1 = st ∧
    ∀ mm, Action.ackSend cPrev mm ∉ (processDecoded st sock m now).2 := by
  have hreg : registryHas st.vehicleConnections vin = true := by
    simp [registryHas, hr]
  constructor
  · rw [processDecoded_state st sock m now vin hv, hreg]
    simp
  · intro mm hmem
    have : (cPrev, mm) ∈ acksOf (processDecoded st sock m now).2 :=
      (mem_acksOf _ _ _).mpr hmem
    rw [processDecoded_acks st sock m now vin hv] at this
    by_cases hc : isTelemetryDataMessage m && sock.isOpen
    · rw [if_pos hc] at this
      simp at this
      exact hne this.1
    · rw [if_neg hc] at this
      simp at this

/-- C2 witness: the amended theorem evaluated where V1 is mapped to socket 1
and the duplicate frame arrives on socket 2. -/
theorem c2_duplicate_vin_keeps_prior_mapping_witness :
    vinOf (.obj [("vin", .str "V1"), ("data", .arr [])]) = some "V1" ∧
    lookupVin [("V1", 1)] "V1" = some 1 ∧
    (processDecoded ⟨[("V1", 1)], true⟩ ⟨2, true⟩
        (.obj [("vin", .str "V1"), ("data", .arr [])]) "T").1
      = ⟨[("V1", 1)], true⟩ :=
  ⟨rfl, rfl,
   (c2_duplicate_vin_keeps_prior_mapping ⟨[("V1", 1)], true⟩ ⟨2, true⟩
      (.obj [("vin", .str "V1"), ("data", .arr [])]) "T" "V1" 1
      rfl rfl (by decide)).1⟩

/-- C3 counterexample: the payload `{vin:"V1", data:5}` has a `data` field
whose value is not an array, so the per-frame shape probe classifies it
Unknown — yet an acknowledgment is still written to the producer socket,
because `sendAcknowledgment` tests only `'data' in message`.  This
contradicts "acknowledged if and only if classified as a DataMessage". -/
theorem c3_counterexample :
    classify (.obj [("vin", .str "V1"), ("data", .num 5)]) = MsgClass.unknown ∧
    acksOf (processDecoded ⟨[], true⟩ ⟨1, true⟩
        (.obj [("vin", .str "V1"), ("data", .num 5)]) "T").2
      = [(1, ackMsg "V1" "T")] :=
  ⟨rfl, rfl⟩

/-- C3 (amended): for a decoded frame with a valid identity, the
acknowledgment `{type:"ack", vin, timestamp}` is written back to the
originating producer connection exactly when the payload carries a `data`
field of any shape (the `isTelemetryDataMessage` guard, which does not check
that the value is an array) and the originating socket is open; payloads
without a `data` field — whether classified Connectivity, Error, Alert or
Unknown — receive no acknowledgment. -/
theorem c3_ack_iff_data_field (st : TelemetryState) (sock : VehicleConn)
    (m : JValue) (now vin : String) (hv : vinOf m = some vin) :
    acksOf (processDecoded st sock m now).2
      = (if isTelemetryDataMessage m && sock.isOpen
         then [(sock.id, ackMsg vin now)] else []) ∧
    (acksOf (processDecoded st sock m now).2 ≠ []
      ↔ (isTelemetryDataMessage m = true ∧ sock.isOpen = true)) := by
  have h := processDecoded_acks st sock m now vin hv
  refine ⟨h, ?_⟩
  rw [h]
  by_cases hc : isTelemetryDataMessage m && sock.isOpen
  · simp_all
  · simp_all

/-- C3 witness: the amended theorem evaluated on a DataMessage frame from an
open socket, where the single ack is written. -/
theorem c3_ack_iff_data_field_witness :
    vinOf (.obj [("vin", .str "V1"), ("data", .arr [])]) = some "V1" ∧
    acksOf (processDecoded ⟨[], true⟩ ⟨1, true⟩
        (.obj [("vin", .str "V1"), ("data", .arr [])]) "T").2
      = (if isTelemetryDataMessage (.obj [("vin", .str "V1"), ("data", .arr [])])
            && (true : Bool)
         then [(1, ackMsg "V1" "T")] else []) :=
  ⟨rfl,
   (c3_ack_iff_data_field ⟨[], true⟩ ⟨1, true⟩
      (.obj [("vin", .str "V1"), ("data", .arr [])]) "T" "V1" rfl).1⟩

/-- C4 counterexample: the payload `{vin:""}` passes the identity guard
(`typeof vin === 'string'` accepts the empty string), is not rejected, and a
CONNECTED connectivity message whose identity is the empty string is
broadcast to subscribers — contradicting "every variant broadcast carries a
non-empty identity string". -/
theorem c4_counterexample :
    vinOf (.obj [("vin", .str "")]) = some "" ∧
    broadcastsOf (processDecoded ⟨[], true⟩ ⟨1, true⟩
        (.obj [("vin", .str "")]) "T").2
      = [connectivityMsg "" "CONNECTED" "T", .obj [("vin", .str "")]] ∧
    (connectivityMsg "" "CONNECTED" "T").get? "vin" = some (.str "") ∧
    ("" : String).length = 0 :=
  ⟨rfl, rfl, rfl, rfl⟩

/-- C4 (amended): every decoded payload lacking a string `vin` field is
rejected before classification — dropped with a diagnostic, no registry
update, no broadcast, no ack — and consequently every message broadcast
while processing a frame carries a string identity equal to the frame's vin,
which however may be the empty string. -/
theorem c4_vin_guard (st : TelemetryState) (sock : VehicleConn) (m : JValue)
    (now vin : String) :
    (vinOf m = none → processDecoded st sock m now = (st, [.diag .noVin])) ∧
    (vinOf m = some vin →
      ∀ b ∈ broadcastsOf (processDecoded st sock m now).2,
        b.get? "vin" = some (.str vin)) := by
  constructor
  · intro h
    simp only [processDecoded, h]
  · intro hv b hb
    rw [processDecoded_broadcasts st sock m now vin hv] at hb
    rcases List.mem_append.mp hb with h1 | h2
    · by_cases hreg : registryHas st.vehicleConnections vin = true
      · rw [if_pos hreg] at h1
        exact absurd h1 (List.not_mem_nil b)
      · rw [if_neg hreg] at h1
        have : b = connectivityMsg vin "CONNECTED" now := List.mem_singleton.mp h1
        subst this
        rfl
    · by_cases hok : processBroadcastOk m = true
      · rw [if_pos hok] at h2
        have hbm : b = m := List.mem_singleton.mp h2
        rw [hbm]
        exact get_vin_of_vinOf m vin hv
      · rw [if_neg hok] at h2
        exact absurd h2 (List.not_mem_nil b)

/-- C4 witness: the amended theorem evaluated on a payload with no vin field
(rejected) and on the empty-vin payload (all broadcasts carry the empty
string identity). -/
theorem c4_vin_guard_witness :
    vinOf (.obj [("data", .arr [])]) = none ∧
    processDecoded ⟨[], true⟩ ⟨1, true⟩ (.obj [("data", .arr [])]) "T"
      = (⟨[], true⟩, [.diag .noVin]) ∧
    vinOf (.obj [("vin", .str "")]) = some "" ∧
    ((connectivityMsg "" "CONNECTED" "T").get? "vin" = some (.str "")) :=
  ⟨rfl,
   (c4_vin_guard ⟨[], true⟩ ⟨1, true⟩ (.obj [("data", .arr [])]) "T" "").1 rfl,
   rfl,
   (c4_vin_guard ⟨[], true⟩ ⟨1, true⟩ (.obj [("vin", .str "")]) "T" "").2 rfl
     (connectivityMsg "" "CONNECTED" "T") (by
       have h : broadcastsOf (processDecoded ⟨[], true⟩ ⟨1, true⟩
            (.obj [("vin", .str "")]) "T").2
           = [connectivityMsg "" "CONNECTED" "T", .obj [("vin", .str "")]] := rfl
       rw [h]
       exact List.mem_cons_self _ _)⟩

/-- C10: until the asynchronous protobuf schema load has set `PayloadType`,
`handleVehicleMessage` drops every producer frame — including well-formed
text frames — with a diagnostic: the state is unchanged and no broadcast,
registry update or acknowledgment happens. -/
theorem c10_frames_dropped_until_proto_loaded (st : TelemetryState)
    (sock : VehicleConn) (frame : Frame) (now : String)
    (h : st.payloadLoaded = false) :
    handleVehicleMessage st sock frame now = (st, [.diag .protoNotLoaded]) := by
  simp [handleVehicleMessage, h]

/-- C10 witness: a well-formed JSON text frame whose decoding needs no
schema is still dropped while `PayloadType` is unset. -/
theorem c10_frames_dropped_until_proto_loaded_witness :
    (⟨[("V9", 3)], false⟩ : TelemetryState).payloadLoaded = false ∧
    handleVehicleMessage ⟨[("V9", 3)], false⟩ ⟨1, true⟩
        (.text (some (.obj [("vin", .str "V1"), ("data", .arr [])]))) "T"
      = (⟨[("V9", 3)], false⟩, [.diag .protoNotLoaded]) :=
  ⟨rfl,
   c10_frames_dropped_until_proto_loaded ⟨[("V9", 3)], false⟩ ⟨1, true⟩
     (.text (some (.obj [("vin", .str "V1"), ("data", .arr [])]))) "T" rfl⟩

/-- In a pool with distinct socket ids, selecting the open clients and then
keeping only a given open member's id yields exactly that member's single
entry. -/
theorem filterOpenId {α : Type} (cs : List Client) (c : Client) (x : α)
    (hm : c ∈ cs) (ho : c.isOpen = true) (hn : (cs.map Client.id).Nodup) :
    (cs.filter (fun cc => cc.isOpen)).filterMap
      (fun cc => if cc.id = c.id then some x else none) = [x] := by
  induction cs with
  | nil => cases hm
  | cons a rest ih =>
    simp only [List.map_cons, List.nodup_cons] at hn
    obtain ⟨hna, hnr⟩ := hn
    rcases List.mem_cons.mp hm with rfl | hmr
    · rw [List.filter_cons, if_pos ho]
      have hcons : (c :: rest.filter (fun cc => cc.isOpen)).filterMap
          (fun cc => if cc.id = c.id then some x else none)
          = x :: (rest.filter (fun cc => cc.isOpen)).filterMap
              (fun cc => if cc.id = c.id then some x else none) := by
        simp
      rw [hcons]
      have hnil : (rest.filter (fun cc => cc.isOpen)).filterMap
          (fun cc => if cc.id = c.id then some x else none) = [] := by
        apply List.filterMap_eq_nil_iff.mpr
        intro cc hcc
        have hccr : cc ∈ rest := List.mem_of_mem_filter hcc
        have : cc.id ≠ c.id := fun h =>
          hna (h ▸ List.mem_map.mpr ⟨cc, hccr, rfl⟩)
        simp [this]
      rw [hnil]
    · have hac : a.id ≠ c.id := fun h =>
        hna (h ▸ List.mem_map.mpr ⟨c, hmr, rfl⟩)
      rw [List.filter_cons]
      by_cases hao : a.isOpen = true
      · rw [if_pos hao, List.filterMap_cons]
        simp only [if_neg hac]
        exact ih hmr hnr
      · rw [if_neg hao]
        exact ih hmr hnr

/-- One `broadcastTelemetry` fan-out delivers exactly one copy of the message
to each open pool member (pool ids distinct). -/
theorem sendsTo_singleton (pool : ClientServerState) (c : Client) (msg : JValue)
    (hm : c ∈ pool.clients) (ho : c.isOpen = true)
    (hn : (pool.clients.map Client.id).Nodup) :
    (broadcastTelemetry pool msg).sends.filterMap
      (fun s => if s.1 = c.id then some s.2 else none) = [msg] := by
  have hne : pool.clients.isEmpty = false := by
    rcases h : pool.clients with _ | ⟨a, rest⟩
    · rw [h] at hm
      cases hm
    · rfl
  simp only [broadcastTelemetry, hne, Bool.false_eq_true, if_false]
  rw [List.filterMap_map]
  have hfun : ((fun s : Nat × JValue => if s.1 = c.id then some s.2 else none) ∘
      (fun cc : Client => (cc.id, msg)))
      = (fun cc : Client => if cc.id = c.id then some msg else none) := by
    funext cc
    by_cases h : cc.id = c.id <;> simp [h]
  rw [hfun]
  exact filterOpenId pool.clients c msg hm ho hn

/-- For an open member of a distinct-id pool, the messages delivered by a
sequence of broadcasts are exactly the broadcast messages, in order. -/
theorem deliveredTo_eq_broadcasts (pool : ClientServerState) (c : Client)
    (acts : List Action) (hm : c ∈ pool.clients) (ho : c.isOpen = true)
    (hn : (pool.clients.map Client.id).Nodup) :
    deliveredTo pool c.id acts = broadcastsOf acts := by
  unfold deliveredTo
  generalize broadcastsOf acts = L
  induction L with
  | nil => simp
  | cons m L ih =>
    rw [List.flatMap_cons, List.filterMap_append,
        sendsTo_singleton pool c m hm ho hn, ih]
    rfl

/-- A frame whose shape probe lands on DataMessage passed the
`Array.isArray` test on its `data` field. -/
theorem classify_data_isArrField (m : JValue) (h : classify m = .data) :
    isArrField m "data" = true := by
  by_contra hd
  unfold classify at h
  rw [if_neg hd] at h
  by_cases h2 : isConnStatusField m = true
  · rw [if_pos h2] at h
    exact absurd h (by simp)
  · rw [if_neg h2] at h
    by_cases h3 : isArrField m "errors" = true
    · rw [if_pos h3] at h
      exact absurd h (by simp)
    · rw [if_neg h3] at h
      by_cases h4 : isArrField m "alerts" = true
      · rw [if_pos h4] at h
        exact absurd h (by simp)
      · rw [if_neg h4] at h
        exact absurd h (by simp)

/-- A frame whose shape probe lands on DataMessage carries a `data` field, so
the `isTelemetryDataMessage` guard accepts it. -/
theorem data_classified_has_data (m : JValue) (h : classify m = .data) :
    isTelemetryDataMessage m = true := by
  have hd := classify_data_isArrField m h
  simp only [isTelemetryDataMessage, JValue.hasField]
  unfold isArrField at hd
  cases hg : m.get? "data" <;> rw [hg] at hd
  · simp at hd
  · simp

/-- A frame whose shape probe lands on DataMessage has an array `data` field,
so `message.data.length` cannot throw and `processMessage` reaches its
broadcast. -/
theorem data_classified_broadcast_ok (m : JValue) (h : classify m = .data) :
    processBroadcastOk m = true := by
  have hd := classify_data_isArrField m h
  have hthrow : dataBranchThrows m = false := by
    unfold isArrField at hd
    unfold dataBranchThrows
    cases hg : m.get? "data" <;> rw [hg] at hd
    case some v =>
      cases v <;> first | rfl | exact absurd hd (by simp)
  simp [processBroadcastOk, data_classified_has_data m h, hthrow]

/-- An absent field reads as `none`. -/
theorem get_none_of_hasField_false (m : JValue) (k : String)
    (h : m.hasField k = false) : m.get? k = none := by
  unfold JValue.hasField at h
  cases hg : m.get? k
  · rfl
  · rw [hg] at h
    simp at h

/-- A payload with none of the four discriminating fields is classified
Unknown by the shape probe. -/
theorem classify_unknown_of_no_fields (m : JValue)
    (hd : m.hasField "data" = false) (hs : m.hasField "status" = false)
    (he : m.hasField "errors" = false) (ha : m.hasField "alerts" = false) :
    classify m = .unknown := by
  have gd := get_none_of_hasField_false m "data" hd
  have gs := get_none_of_hasField_false m "status" hs
  have ge := get_none_of_hasField_false m "errors" he
  have ga := get_none_of_hasField_false m "alerts" ha
  unfold classify isArrField isConnStatusField
  rw [gd, gs, ge, ga]
  rfl

/-- A payload with none of the four discriminating fields lands in
`processMessage`'s fallback branch: a diagnostic, then the broadcast. -/
theorem processMessageActs_of_no_fields (m : JValue)
    (hd : m.hasField "data" = false) (hs : m.hasField "status" = false)
    (he : m.hasField "errors" = false) (ha : m.hasField "alerts" = false) :
    processMessageActs m = [.diag .processUnknown, .broadcast m] := by
  simp [processMessageActs, isTelemetryDataMessage, isTelemetryConnectivityMessage,
        isTelemetryErrorMessage, isTelemetryAlertMessage, hd, hs, he, ha]

/-- A payload with none of the four discriminating fields cannot make the
fallback branch throw, so the broadcast is reached. -/
theorem processBroadcastOk_of_no_fields (m : JValue)
    (hd : m.hasField "data" = false) (hs : m.hasField "status" = false)
    (he : m.hasField "errors" = false) (ha : m.hasField "alerts" = false) :
    processBroadcastOk m = true := by
  simp [processBroadcastOk, isTelemetryDataMessage, isTelemetryConnectivityMessage,
        isTelemetryErrorMessage, isTelemetryAlertMessage, hd, hs, he, ha]

/-- C5 counterexample: the first frame `{vin:"V9", data:null}` for a fresh
identity is inside the claim's scope — the registry entry is inserted and
CONNECTED is broadcast — but the frame itself is never broadcast: the data
branch of `processMessage` throws on `message.data.length` (data is null)
and the catch drops it, so subscribers receive only the CONNECTED message,
not the payload whose broadcast the claim asserts. -/
theorem c5_counterexample :
    vinOf (.obj [("vin", .str "V9"), ("data", .null)]) = some "V9" ∧
    registryHas ([] : List (String × Nat)) "V9" = false ∧
    (processDecoded ⟨[], true⟩ ⟨1, true⟩
        (.obj [("vin", .str "V9"), ("data", .null)]) "T").1.vehicleConnections
      = [("V9", 1)] ∧
    broadcastsOf (processDecoded ⟨[], true⟩ ⟨1, true⟩
        (.obj [("vin", .str "V9"), ("data", .null)]) "T").2
      = [connectivityMsg "V9" "CONNECTED" "T"] ∧
    (JValue.obj [("vin", .str "V9"), ("data", .null)]) ∉
      broadcastsOf (processDecoded ⟨[], true⟩ ⟨1, true⟩
        (.obj [("vin", .str "V9"), ("data", .null)]) "T").2 := by
  refine ⟨rfl, rfl, rfl, rfl, ?_⟩
  intro hmem
  rw [show broadcastsOf (processDecoded ⟨[], true⟩ ⟨1, true⟩
      (.obj [("vin", .str "V9"), ("data", .null)]) "T").2
      = [connectivityMsg "V9" "CONNECTED" "T"] from rfl] at hmem
  have h := List.mem_singleton.mp hmem
  simp [connectivityMsg] at h

/-- C5 (amended): a producer frame whose identity is new to the registry
inserts the mapping and broadcasts the synthesized CONNECTED connectivity
message strictly before the frame is classified and its broadcast attempted;
the frame itself is then broadcast unless the `processMessage` branch
selected by field presence throws on a malformed field (e.g. a null `data`
field), in which case it is dropped with a diagnostic; every open subscriber
(distinct ids) thus receives CONNECTED first and the payload after it
whenever the payload is forwarded; for a frame classified DataMessage the
payload is always broadcast after CONNECTED, and the producer socket, if
open, receives exactly one ack. -/
theorem c5_first_frame_connected_then_payload (st : TelemetryState)
    (sock : VehicleConn) (m : JValue) (now vin : String)
    (pool : ClientServerState)
    (hv : vinOf m = some vin)
    (hr : registryHas st.vehicleConnections vin = false) :
    (processDecoded st sock m now).1.vehicleConnections
      = st.vehicleConnections ++ [(vin, sock.id)] ∧
    broadcastsOf (processDecoded st sock m now).2
      = connectivityMsg vin "CONNECTED" now
        :: (if processBroadcastOk m then [m] else []) ∧
    (∀ c ∈ pool.clients, c.isOpen = true →
      (pool.clients.map Client.id).Nodup →
      deliveredTo pool c.id (processDecoded st sock m now).2
        = connectivityMsg vin "CONNECTED" now
          :: (if processBroadcastOk m then [m] else [])) ∧
    (classify m = .data →
      broadcastsOf (processDecoded st sock m now).2
        = [connectivityMsg vin "CONNECTED" now, m] ∧
      (sock.isOpen = true →
        acksOf (processDecoded st sock m now).2 = [(sock.id, ackMsg vin now)])) := by
  have hbr : broadcastsOf (processDecoded st sock m now).2
      = connectivityMsg vin "CONNECTED" now
        :: (if processBroadcastOk m then [m] else []) := by
    rw [processDecoded_broadcasts st sock m now vin hv, hr]
    simp
  refine ⟨?_, hbr, ?_, ?_⟩
  · rw [processDecoded_state st sock m now vin hv, hr]
    simp
  · intro c hc ho hn
    rw [deliveredTo_eq_broadcasts pool c _ hc ho hn, hbr]
  · intro hcls
    constructor
    · rw [hbr, if_pos (data_classified_broadcast_ok m hcls)]
    · intro hopen
      rw [processDecoded_acks st sock m now vin hv,
          data_classified_has_data m hcls, hopen]
      rfl

/-- C5 witness: Scenario A — first DataMessage frame for V1 from socket 1:
registry gains V1, the broadcasts are CONNECTED then the payload in that
order, the producer gets the single ack. -/
theorem c5_first_frame_connected_then_payload_witness :
    vinOf scenarioAPayload = some "V1" ∧
    registryHas ([] : List (String × Nat)) "V1" = false ∧
    classify scenarioAPayload = MsgClass.data ∧
    (processDecoded ⟨[], true⟩ ⟨1, true⟩ scenarioAPayload "T").1.vehicleConnections
      = [("V1", 1)] ∧
    broadcastsOf (processDecoded ⟨[], true⟩ ⟨1, true⟩ scenarioAPayload "T").2
      = [connectivityMsg "V1" "CONNECTED" "T", scenarioAPayload] ∧
    acksOf (processDecoded ⟨[], true⟩ ⟨1, true⟩ scenarioAPayload "T").2
      = [(1, ackMsg "V1" "T")] :=
  ⟨rfl, rfl, rfl,
   (c5_first_frame_connected_then_payload ⟨[], true⟩ ⟨1, true⟩ scenarioAPayload
      "T" "V1" ⟨[]⟩ rfl rfl).1,
   ((c5_first_frame_connected_then_payload ⟨[], true⟩ ⟨1, true⟩ scenarioAPayload
      "T" "V1" ⟨[]⟩ rfl rfl).2.2.2 rfl).1,
   ((c5_first_frame_connected_then_payload ⟨[], true⟩ ⟨1, true⟩ scenarioAPayload
      "T" "V1" ⟨[]⟩ rfl rfl).2.2.2 rfl).2 rfl⟩

/-- C6: `broadcastTelemetry` on an empty pool returns without serializing;
otherwise it serializes exactly once and writes the one serialized message to
precisely the open pool members, skipping closed ones; and (Scenario B frame
condition) processing a frame whose identity is already registered leaves the
producer registry unchanged — in the embedding `broadcastTelemetry` takes the
pool read-only and returns only its write list, so it can alter neither pool
membership nor registry. -/
theorem c6_broadcast_serialize_once_open_only (st : ClientServerState)
    (m : JValue) (tst : TelemetryState) (sock : VehicleConn) (vin now : String) :
    (st.clients = [] → broadcastTelemetry st m = ⟨[], 0⟩) ∧
    (st.clients ≠ [] →
      (broadcastTelemetry st m).serializations = 1 ∧
      (broadcastTelemetry st m).sends
        = (st.clients.filter (fun c => c.isOpen)).map (fun c => (c.id, m))) ∧
    (vinOf m = some vin → registryHas tst.vehicleConnections vin = true →
      (processDecoded tst sock m now).1 = tst) := by
  refine ⟨?_, ?_, ?_⟩
  · intro h
    simp [broadcastTelemetry, h]
  · intro h
    have hne : st.clients.isEmpty = false := by
      rcases hc : st.clients with _ | ⟨a, rest⟩
      · exact absurd hc h
      · rfl
    constructor <;> simp [broadcastTelemetry, hne]
  · intro hv hreg
    rw [processDecoded_state tst sock m now vin hv, hreg]
    simp

/-- C6 witness: two open subscribers, an AlertMessage from already-registered
V1 — both receive the same copy, one serialization, registry untouched. -/
theorem c6_broadcast_serialize_once_open_only_witness :
    (broadcastTelemetry
        ⟨[{ id := 1, isOpen := true, isAlive := none },
          { id := 2, isOpen := true, isAlive := none }]⟩
        (.obj [("vin", .str "V1"), ("alerts", .arr [])])).serializations = 1 ∧
    (broadcastTelemetry
        ⟨[{ id := 1, isOpen := true, isAlive := none },
          { id := 2, isOpen := true, isAlive := none }]⟩
        (.obj [("vin", .str "V1"), ("alerts", .arr [])])).sends
      = [(1, .obj [("vin", .str "V1"), ("alerts", .arr [])]),
         (2, .obj [("vin", .str "V1"), ("alerts", .arr [])])] ∧
    (processDecoded ⟨[("V1", 7)], true⟩ ⟨7, true⟩
        (.obj [("vin", .str "V1"), ("alerts", .arr [])]) "T").1
      = ⟨[("V1", 7)], true⟩ ∧
    broadcastTelemetry ⟨[]⟩ (.obj [("vin", .str "V1"), ("alerts", .arr [])])
      = ⟨[], 0⟩ :=
  ⟨((c6_broadcast_serialize_once_open_only
      ⟨[{ id := 1, isOpen := true, isAlive := none },
        { id := 2, isOpen := true, isAlive := none }]⟩
      (.obj [("vin", .str "V1"), ("alerts", .arr [])])
      ⟨[("V1", 7)], true⟩ ⟨7, true⟩ "V1" "T").2.1 (by decide)).1,
   rfl,
   (c6_broadcast_serialize_once_open_only
      ⟨[{ id := 1, isOpen := true, isAlive := none },
        { id := 2, isOpen := true, isAlive := none }]⟩
      (.obj [("vin", .str "V1"), ("alerts", .arr [])])
      ⟨[("V1", 7)], true⟩ ⟨7, true⟩ "V1" "T").2.2 rfl rfl,
   (c6_broadcast_serialize_once_open_only ⟨[]⟩
      (.obj [("vin", .str "V1"), ("alerts", .arr [])])
      ⟨[("V1", 7)], true⟩ ⟨7, true⟩ "V1" "T").1 rfl⟩

/-- C8 counterexample: `{vin:"V1", errors:5}` has a valid identity and
matches none of the four known shapes (its `errors` field is not an array),
so the claim asserts it is forwarded — but `processMessage` dispatches it to
the errors branch (`'errors' in message`), where `message.errors.forEach`
throws a TypeError that the catch swallows: the frame is dropped, and
subscribers receive only the CONNECTED message. -/
theorem c8_counterexample :
    vinOf (.obj [("vin", .str "V1"), ("errors", .num 5)]) = some "V1" ∧
    classify (.obj [("vin", .str "V1"), ("errors", .num 5)])
      = MsgClass.unknown ∧
    broadcastsOf (processDecoded ⟨[], true⟩ ⟨1, true⟩
        (.obj [("vin", .str "V1"), ("errors", .num 5)]) "T").2
      = [connectivityMsg "V1" "CONNECTED" "T"] ∧
    (JValue.obj [("vin", .str "V1"), ("errors", .num 5)]) ∉
      broadcastsOf (processDecoded ⟨[], true⟩ ⟨1, true⟩
        (.obj [("vin", .str "V1"), ("errors", .num 5)]) "T").2 := by
  refine ⟨rfl, rfl, rfl, ?_⟩
  intro hmem
  rw [show broadcastsOf (processDecoded ⟨[], true⟩ ⟨1, true⟩
      (.obj [("vin", .str "V1"), ("errors", .num 5)]) "T").2
      = [connectivityMsg "V1" "CONNECTED" "T"] from rfl] at hmem
  have h := List.mem_singleton.mp hmem
  simp [connectivityMsg] at h

/-- C8 (amended): a decoded payload with a valid identity carrying none of
the four fields data/status/errors/alerts at all (Scenario E) is never
dropped — it is classified Unknown, a diagnostic is logged, and the payload
itself is broadcast verbatim (after the CONNECTED notification when the
identity is new), reaching every open subscriber in a distinct-id pool; an
unknown-shaped payload that does carry one of those fields is forwarded only
when the selected dispatch branch does not throw while logging (a null
`data` field, a non-array `errors` field, or a null `alerts` field throws,
and the catch then drops the frame with only an error diagnostic). -/
theorem c8_unknown_forwarded_unchanged (st : TelemetryState)
    (sock : VehicleConn) (m : JValue) (now vin : String)
    (pool : ClientServerState)
    (hv : vinOf m = some vin)
    (hd : m.hasField "data" = false) (hs : m.hasField "status" = false)
    (he : m.hasField "errors" = false) (ha : m.hasField "alerts" = false) :
    classify m = .unknown ∧
    Action.diag .processUnknown ∈ (processDecoded st sock m now).2 ∧
    broadcastsOf (processDecoded st sock m now).2
      = (if registryHas st.vehicleConnections vin then []
         else [connectivityMsg vin "CONNECTED" now]) ++ [m] ∧
    (∀ c ∈ pool.clients, c.isOpen = true →
      (pool.clients.map Client.id).Nodup →
      deliveredTo pool c.id (processDecoded st sock m now).2
        = (if registryHas st.vehicleConnections vin then []
           else [connectivityMsg vin "CONNECTED" now]) ++ [m]) := by
  have hcls := classify_unknown_of_no_fields m hd hs he ha
  have hok := processBroadcastOk_of_no_fields m hd hs he ha
  have hbr : broadcastsOf (processDecoded st sock m now).2
      = (if registryHas st.vehicleConnections vin then []
         else [connectivityMsg vin "CONNECTED" now]) ++ [m] := by
    rw [processDecoded_broadcasts st sock m now vin hv, if_pos hok]
  refine ⟨hcls, ?_, hbr, ?_⟩
  · rw [processDecoded_some st sock m now vin hv,
        processMessageActs_of_no_fields m hd hs he ha]
    simp [hcls, List.mem_append]
  · intro c hc ho hn
    rw [deliveredTo_eq_broadcasts pool c _ hc ho hn, hbr]

/-- C8 witness: Scenario E — a frame with a valid identity and no
data/status/errors/alerts field is forwarded verbatim with a diagnostic. -/
theorem c8_unknown_forwarded_unchanged_witness :
    vinOf (.obj [("vin", .str "V1"), ("odometer", .num 42)]) = some "V1" ∧
    (JValue.obj [("vin", .str "V1"), ("odometer", .num 42)]).hasField "data"
      = false ∧
    classify (.obj [("vin", .str "V1"), ("odometer", .num 42)])
      = MsgClass.unknown ∧
    broadcastsOf (processDecoded ⟨[], true⟩ ⟨1, true⟩
        (.obj [("vin", .str "V1"), ("odometer", .num 42)]) "T").2
      = (if registryHas ([] : List (String × Nat)) "V1" then []
         else [connectivityMsg "V1" "CONNECTED" "T"])
        ++ [.obj [("vin", .str "V1"), ("odometer", .num 42)]] ∧
    Action.diag .processUnknown ∈ (processDecoded ⟨[], true⟩ ⟨1, true⟩
        (.obj [("vin", .str "V1"), ("odometer", .num 42)]) "T").2 :=
  ⟨rfl, rfl,
   (c8_unknown_forwarded_unchanged ⟨[], true⟩ ⟨1, true⟩
      (.obj [("vin", .str "V1"), ("odometer", .num 42)]) "T" "V1"
      ⟨[]⟩ rfl rfl rfl rfl rfl).1,
   (c8_unknown_forwarded_unchanged ⟨[], true⟩ ⟨1, true⟩
      (.obj [("vin", .str "V1"), ("odometer", .num 42)]) "T" "V1"
      ⟨[]⟩ rfl rfl rfl rfl rfl).2.2.1,
   (c8_unknown_forwarded_unchanged ⟨[], true⟩ ⟨1, true⟩
      (.obj [("vin", .str "V1"), ("odometer", .num 42)]) "T" "V1"
      ⟨[]⟩ rfl rfl rfl rfl rfl).2.1⟩

/-- C9: on producer close, if the registry holds an entry whose connection
equals the closing socket then that entry is removed — with distinct VIN keys,
that entry and only that entry — and a synthesized DISCONNECTED connectivity
message carrying its identity is the only broadcast; if no entry matches,
the state is unchanged and nothing is broadcast. -/
theorem c9_producer_close (st : TelemetryState) (sockId : Nat) (now : String)
    (vin : String) (cid : Nat) :
    (st.vehicleConnections.find? (fun p => p.2 == sockId) = some (vin, cid) →
      (vin, cid) ∈ st.vehicleConnections ∧
      (onVehicleClose st sockId now).1.vehicleConnections
        = st.vehicleConnections.filter (fun p => p.1 != vin) ∧
      broadcastsOf (onVehicleClose st sockId now).2
        = [connectivityMsg vin "DISCONNECTED" now] ∧
      ((st.vehicleConnections.map Prod.fst).Nodup →
        (vin, cid) ∉ (onVehicleClose st sockId now).1.vehicleConnections ∧
        ∀ p ∈ st.vehicleConnections, p ≠ (vin, cid) →
          p ∈ (onVehicleClose st sockId now).1.vehicleConnections)) ∧
    (st.vehicleConnections.find? (fun p => p.2 == sockId) = none →
      (onVehicleClose st sockId now).1 = st ∧
      broadcastsOf (onVehicleClose st sockId now).2 = []) := by
  constructor
  · intro h
    have hmem : (vin, cid) ∈ st.vehicleConnections := List.mem_of_find?_eq_some h
    have hst : (onVehicleClose st sockId now).1.vehicleConnections
        = st.vehicleConnections.filter (fun p => p.1 != vin) := by
      simp only [onVehicleClose, h]
    refine ⟨hmem, hst, ?_, ?_⟩
    · simp only [onVehicleClose, h]
      rfl
    · intro hnd
      constructor
      · rw [hst]
        intro hin
        have := List.of_mem_filter hin
        simp at this
      · intro p hp hpne
        rw [hst]
        have hkey : p.1 ≠ vin := by
          intro hk
          exact hpne (List.inj_on_of_nodup_map hnd hp hmem hk)
        refine List.mem_filter.mpr ⟨hp, ?_⟩
        simp [hkey]
  · intro h
    constructor
    · simp only [onVehicleClose, h]
    · simp only [onVehicleClose, h]
      rfl

/-- C9 witness: registry `[("V1",1),("V2",2)]`, socket 1 closes — V1 is
removed, V2 kept, one DISCONNECTED broadcast for V1; closing unknown socket 9
changes nothing. -/
theorem c9_producer_close_witness :
    ([("V1", 1), ("V2", 2)].find? (fun p => p.2 == 1) = some ("V1", 1)) ∧
    (onVehicleClose ⟨[("V1", 1), ("V2", 2)], true⟩ 1 "T").1.vehicleConnections
      = [("V1", 1), ("V2", 2)].filter (fun p => p.1 != "V1") ∧
    broadcastsOf (onVehicleClose ⟨[("V1", 1), ("V2", 2)], true⟩ 1 "T").2
      = [connectivityMsg "V1" "DISCONNECTED" "T"] ∧
    (onVehicleClose ⟨[("V1", 1), ("V2", 2)], true⟩ 9 "T").1
      = ⟨[("V1", 1), ("V2", 2)], true⟩ :=
  ⟨rfl,
   ((c9_producer_close ⟨[("V1", 1), ("V2", 2)], true⟩ 1 "T" "V1" 1).1 rfl).2.1,
   ((c9_producer_close ⟨[("V1", 1), ("V2", 2)], true⟩ 1 "T" "V1" 1).1 rfl).2.2.1,
   ((c9_producer_close ⟨[("V1", 1), ("V2", 2)], true⟩ 9 "T" "V1" 1).2 rfl).1⟩

/-- Every survivor of a heartbeat tick carries the just-reset flag `false`. -/
theorem tick_survivor_flags (st : ClientServerState) :
    ∀ c ∈ (heartbeatTick st).1.clients, c.isAlive = some false := by
  intro c hc
  simp only [heartbeatTick] at hc
  rcases List.mem_filterMap.mp hc with ⟨a, _, hfa⟩
  by_cases hf : a.isAlive = some false
  · simp [hf] at hfa
  · rw [if_neg hf] at hfa
    have h2 := Option.some.inj hfa
    rw [← h2]

/-- C7 counterexample: admission leaves a fresh subscriber's liveness flag
unassigned (the JS `isAlive` expando is `undefined`, modelled `none`), not
initialized to `true` as the claim states. -/
theorem c7_counterexample :
    (admitClient ⟨[]⟩ 7 "T").1.clients
      = [{ id := 7, isOpen := true, isAlive := none }] ∧
    ({ id := 7, isOpen := true, isAlive := none } : Client).isAlive ≠ some true :=
  ⟨rfl, by decide⟩

/-- C7 (amended): admission adds the subscriber with its liveness flag left
unset (which the tick treats as alive, since only a flag that is exactly
`false` evicts); on each tick every subscriber whose flag is still `false`
from the previous tick is terminated and removed while every other subscriber
has its flag set to `false` and is sent a probe; a pong sets the flag back to
`true`; hence two consecutive ticks with no pong in between evict every
subscriber, and a subscriber that acknowledged since the last probe survives
the next tick. -/
theorem c7_liveness_state_machine (st : ClientServerState) (newId : Nat)
    (now : String) (c : Client) (i : Nat) :
    ((admitClient st newId now).1.clients
      = st.clients ++ [{ id := newId, isOpen := true, isAlive := none }]) ∧
    (c ∈ st.clients → c.isAlive = some false →
      HbEv.terminate c.id ∈ (heartbeatTick st).2 ∧
      ((st.clients.map Client.id).Nodup →
        c.id ∉ (heartbeatTick st).1.clients.map Client.id)) ∧
    (c ∈ st.clients → c.isAlive ≠ some false →
      { c with isAlive := some false } ∈ (heartbeatTick st).1.clients ∧
      HbEv.ping c.id ∈ (heartbeatTick st).2) ∧
    (c ∈ st.clients → c.id = i →
      { c with isAlive := some true } ∈ (handlePong st i).clients) ∧
    ((heartbeatTick (heartbeatTick st).1).1.clients = []) ∧
    (c ∈ (handlePong (heartbeatTick st).1 i).clients → c.isAlive = some true →
      { c with isAlive := some false }
        ∈ (heartbeatTick (handlePong (heartbeatTick st).1 i)).1.clients) := by
  refine ⟨?_, ?_, ?_, ?_, ?_, ?_⟩
  · simp [admitClient]
  · intro hm hf
    constructor
    · simp only [heartbeatTick]
      exact List.mem_map.mpr ⟨c, hm, by simp [hf]⟩
    · intro hn hidmem
      rcases List.mem_map.mp hidmem with ⟨c2, hc2, hcid⟩
      simp only [heartbeatTick] at hc2
      rcases List.mem_filterMap.mp hc2 with ⟨a, ha, hfa⟩
      by_cases haf : a.isAlive = some false
      · simp [haf] at hfa
      · rw [if_neg haf] at hfa
        have hfa2 := Option.some.inj hfa
        have haid : a.id = c.id := by
          rw [← hcid, ← hfa2]
        have : a = c := List.inj_on_of_nodup_map hn ha hm haid
        rw [this] at haf
        exact haf hf
  · intro hm hf
    constructor
    · simp only [heartbeatTick]
      exact List.mem_filterMap.mpr ⟨c, hm, by simp [hf]⟩
    · simp only [heartbeatTick]
      exact List.mem_map.mpr ⟨c, hm, by simp [hf]⟩
  · intro hm hid
    simp only [handlePong]
    exact List.mem_map.mpr ⟨c, hm, by simp [hid]⟩
  · have hflags := tick_survivor_flags st
    have : (heartbeatTick (heartbeatTick st).1).1.clients
        = ((heartbeatTick st).1.clients).filterMap (fun c =>
            if c.isAlive = some false then none
            else some { c with isAlive := some false }) := rfl
    rw [this]
    apply List.filterMap_eq_nil_iff.mpr
    intro a ha
    simp [hflags a ha]
  · intro hm hf
    simp only [heartbeatTick]
    refine List.mem_filterMap.mpr ⟨c, hm, ?_⟩
    simp [hf]

/-- C7 witness: a pool with one subscriber whose flag is `false` (missed the
previous probe) and one whose flag is `true`: the first is terminated on the
tick, and two back-to-back silent ticks empty any pool. -/
theorem c7_liveness_state_machine_witness :
    HbEv.terminate 1 ∈ (heartbeatTick
      ⟨[{ id := 1, isOpen := true, isAlive := some false },
        { id := 2, isOpen := true, isAlive := some true }]⟩).2 ∧
    (heartbeatTick (heartbeatTick
      ⟨[{ id := 1, isOpen := true, isAlive := some false },
        { id := 2, isOpen := true, isAlive := some true }]⟩).1).1.clients = [] ∧
    (admitClient ⟨[]⟩ 3 "T").1.clients
      = [{ id := 3, isOpen := true, isAlive := none }] :=
  ⟨((c7_liveness_state_machine
      ⟨[{ id := 1, isOpen := true, isAlive := some false },
        { id := 2, isOpen := true, isAlive := some true }]⟩ 0 "T"
      { id := 1, isOpen := true, isAlive := some false } 0).2.1
      (by decide) (by decide)).1,
   (c7_liveness_state_machine
      ⟨[{ id := 1, isOpen := true, isAlive := some false },
        { id := 2, isOpen := true, isAlive := some true }]⟩ 0 "T"
      { id := 1, isOpen := true, isAlive := some false } 0).2.2.2.2.1,
   (c7_liveness_state_machine ⟨[]⟩ 3 "T"
      { id := 3, isOpen := true, isAlive := none } 0).1⟩

end TelemetryRelay
